import Mathlib

/-!
Shallow embedding of the bargAIner audio/transcription/advisory pipeline.

The definitions below are translated from the TypeScript sources:

* `src/fe/src/renderer/src/services/audioCapture.ts` — PCM encoding
  (`convertToPCM16`) and the capture-session lifecycle (`AudioCapture`).
* `src/fe/src/renderer/src/services/elevenLabsWebSocket.ts` and its
  keepalive-equipped variant (`src/unnamed/part_002`) — the streaming
  transcription client (`ElevenLabsWebSocket`).
* `src/be/src/agent_loop.ts` and `src/be/src/index.ts` — the advisory
  backend (`runAgentLoop`, `poll`, the `/agent/run` and `/agent/poll`
  HTTP handlers).

Floating-point audio samples are modelled as rational numbers; JavaScript
machine integers are modelled as `Int`/`Nat` with explicit wrapping
(`% 65536` for the 16-bit stores).  Callback-driven and timer-driven
behaviour is modelled by explicit event traces with a step function, and
the asynchronous backend is modelled as a small-step system whose
scheduling (order of advisory-call completions) is chosen by the
environment, matching Node's single-threaded promise interleaving.
-/

namespace BargAIner

/-! ## PCM encoder (`AudioCapture.convertToPCM16`)

```ts
const s = Math.max(-1, Math.min(1, float32Array[i]))
int16Array[i] = s < 0 ? s * 0x8000 : s * 0x7fff
```
The store into an `Int16Array` truncates the number toward zero and wraps
it modulo 2^16 into the signed 16-bit range. -/

/-- JavaScript number-to-integer conversion: truncation toward zero
(sign times the floor of the absolute value). -/
def jsTrunc (q : ℚ) : ℤ :=
  if q < 0 then -(Int.floor (-q)) else Int.floor q

/-- Wrap an integer into the signed 16-bit range, as the `Int16Array`
element store does (`ToInt16`). -/
def int16Wrap (n : ℤ) : ℤ :=
  if n % 65536 < 32768 then n % 65536 else n % 65536 - 65536

/-- `Math.max(-1, Math.min(1, x))`. -/
def clampSample (x : ℚ) : ℚ := max (-1) (min 1 x)

/-- One sample of `convertToPCM16`:
`s < 0 ? s * 0x8000 : s * 0x7fff` stored into an `Int16Array` slot. -/
def encSample (x : ℚ) : ℤ :=
  int16Wrap (jsTrunc
    (if clampSample x < 0 then clampSample x * 32768 else clampSample x * 32767))

/-- `AudioCapture.convertToPCM16`: maps the encoder over the sample
sequence, producing an output of the same length (the `Int16Array` is
allocated with `float32Array.length`). -/
def convertToPCM16 (xs : List ℚ) : List ℤ := xs.map encSample

/-! Little-endian 16-bit byte serialisation (as in `DataView.setInt16`
with `littleEndian = true`) and the corresponding decoder. -/

/-- Serialise a signed 16-bit value as two little-endian bytes. -/
def int16ToLEBytes (v : ℤ) : List ℕ :=
  [(v % 65536).toNat % 256, (v % 65536).toNat / 256]

/-- Read a signed 16-bit value from two little-endian bytes. -/
def leBytesToInt16 (b0 b1 : ℕ) : ℤ :=
  if b0 % 256 + 256 * (b1 % 256) < 32768 then ((b0 % 256 + 256 * (b1 % 256) : ℕ) : ℤ)
  else ((b0 % 256 + 256 * (b1 % 256) : ℕ) : ℤ) - 65536

/-- Decode one little-endian 16-bit sample from a two-byte sequence. -/
def decodeLEPair : List ℕ → Option ℤ
  | [b0, b1] => some (leBytesToInt16 b0 b1)
  | _ => none

/-- Map a decoded 16-bit sample back to a real-valued sample, inverting
the encoder's asymmetric scaling (negative samples were scaled by 2^15,
non-negative ones by 2^15 - 1). -/
def pcm16Decode (v : ℤ) : ℚ :=
  if v < 0 then (v : ℚ) / 32768 else (v : ℚ) / 32767

/-! ## Base64 (`pcmToBase64` / `btoa`)

`ElevenLabsWebSocket.pcmToBase64` serialises the `Int16Array` into
little-endian bytes via `DataView.setInt16(i * 2, pcmData[i], true)` and
encodes the resulting binary string with `btoa` (standard base64 with
`=` padding). -/

/-- The standard base64 alphabet used by `btoa`. -/
def base64Chars : List Char :=
  "ABCDEFGHIJKLMNOPQRSTUVWXYZabcdefghijklmnopqrstuvwxyz0123456789+/".toList

/-- The base64 digit for a 6-bit value. -/
def b64Char (n : ℕ) : Char := base64Chars.getD n 'A'

/-- Position of a character in the base64 alphabet. -/
def b64Index (c : Char) : Option ℕ := base64Chars.findIdx? (· == c)

/-- `btoa`: encode a byte sequence in base64, three bytes per four
output characters, padding the final partial group with `=`. -/
def base64Encode : List ℕ → List Char
  | [] => []
  | [b0] => [b64Char (b0 / 4), b64Char (b0 % 4 * 16), '=', '=']
  | [b0, b1] => [b64Char (b0 / 4), b64Char (b0 % 4 * 16 + b1 / 16), b64Char (b1 % 16 * 4), '=']
  | b0 :: b1 :: b2 :: rest =>
      b64Char (b0 / 4) :: b64Char (b0 % 4 * 16 + b1 / 16) ::
      b64Char (b1 % 16 * 4 + b2 / 64) :: b64Char (b2 % 64) :: base64Encode rest

/-- Base64 decoder (the inverse of `base64Encode`), used to state that
the `audio_base_64` payload really is the base64 encoding of the
little-endian PCM16 bytes. -/
def b64DecodeChars : List Char → Option (List ℕ)
  | [] => some []
  | c0 :: c1 :: c2 :: c3 :: rest =>
    match b64Index c0, b64Index c1, b64Index c2, b64Index c3 with
    | some i0, some i1, some i2, some i3 =>
        (b64DecodeChars rest).map
          (fun tail => (i0 * 4 + i1 / 16) :: (i1 % 16 * 16 + i2 / 4) :: (i2 % 4 * 64 + i3) :: tail)
    | some i0, some i1, some i2, none =>
        if c3 = '=' ∧ rest = [] then some [i0 * 4 + i1 / 16, i1 % 16 * 16 + i2 / 4] else none
    | some i0, some i1, none, none =>
        if c2 = '=' ∧ c3 = '=' ∧ rest = [] then some [i0 * 4 + i1 / 16] else none
    | _, _, _, _ => none
  | _ => none

/-- The little-endian byte serialisation of a whole PCM sample list
(the loop of `DataView.setInt16(i * 2, pcmData[i], true)`). -/
def pcmLEBytes (pcm : List ℤ) : List ℕ :=
  (pcm.map int16ToLEBytes).flatten

/-- `ElevenLabsWebSocket.pcmToBase64`. -/
def pcmToBase64 (pcm : List ℤ) : String :=
  String.mk (base64Encode (pcmLEBytes pcm))

/-! ## Wire messages

All JSON messages this client sends are flat objects with string,
number or boolean values, modelled as association lists. -/

/-- A scalar JSON value. -/
inductive JVal where
  | str (s : String)
  | num (n : ℤ)
  | bool (b : Bool)
deriving DecidableEq

/-- A flat JSON object, as an ordered field list. -/
abbrev JObj := List (String × JVal)

/-! ## Transcription client (`ElevenLabsWebSocket`)

Model of the keepalive-equipped class of `src/unnamed/part_002` (the
variant in `src/fe/.../elevenLabsWebSocket.ts` has the same
`sendAudioChunk` and message handling, without a keepalive).  The
browser `WebSocket`, the timer and the remote endpoint are the
environment; their interaction is an event trace consumed by `wsStep`. -/

/-- `WebSocket.readyState` constants. -/
inductive WSReadyState where
  | CONNECTING
  | OPEN
  | CLOSING
  | CLOSED
deriving DecidableEq

/-- Audio source tag of a connection (`type AudioSource = 'mic' | 'system'`). -/
inductive AudioSource where
  | mic
  | system
deriving DecidableEq

/-- `'mic' | 'system'` as the string sent in the enqueue body. -/
def sourceName : AudioSource → String
  | .mic => "mic"
  | .system => "system"

/-- Which optional callbacks the caller registered
(`ElevenLabsWebSocketCallbacks`). -/
structure CallbackSet where
  onPartialTranscript : Bool
  onCommittedTranscript : Bool
  onError : Bool
  onClose : Bool
deriving DecidableEq

/-- Observable effects of a step: wire messages sent on the socket,
console logs, the HTTP enqueue to the backend, and callback firings. -/
inductive Output where
  | wireMsg (m : JObj)
  | logInfo (s : String)
  | logWarn (s : String)
  | httpPost (url : String) (body : JObj)
  | cbPartialTranscript (text : String) (src : AudioSource)
  | cbCommittedTranscript (text : String) (src : AudioSource)
  | cbError (msg : String) (src : AudioSource)
  | cbClose (src : AudioSource)
deriving DecidableEq

/-- The mutable fields of class `ElevenLabsWebSocket`. -/
structure ElevenLabsWebSocket where
  ws : Option WSReadyState
  isConnected : Bool
  keepaliveInterval : Bool
  silentChunk : Option (List ℤ)
  callbacks : CallbackSet
  source : AudioSource
deriving DecidableEq

/-- `createSilentChunk`: 100 ms of silence at 16 kHz
(`new Int16Array(1600).fill(0)`). -/
def createSilentChunk : List ℤ := List.replicate 1600 0

/-- The keepalive period passed to `setInterval` (milliseconds). -/
def keepaliveIntervalMs : ℕ := 5000

/-- The guard of `sendAudioChunk`:
`this.isConnected && this.ws && this.ws.readyState === WebSocket.OPEN`. -/
def connOpen (s : ElevenLabsWebSocket) : Bool :=
  s.isConnected && s.ws == some WSReadyState.OPEN

/-- The outbound audio message built by `sendAudioChunk`
("ElevenLabs Realtime STT API format"). -/
def audioChunkMessage (pcm : List ℤ) : JObj :=
  [("message_type", JVal.str "input_audio_chunk"),
   ("audio_base_64", JVal.str (pcmToBase64 pcm)),
   ("commit", JVal.bool false),
   ("sample_rate", JVal.num 16000)]

/-- The outbound audio message as the specification document words it
(`{ type: "input_audio_chunk", audio_base64: ..., commit: false,
sample_rate: 16000 }`), for comparison against `audioChunkMessage`. -/
def specAudioChunkMessage (pcm : List ℤ) : JObj :=
  [("type", JVal.str "input_audio_chunk"),
   ("audio_base64", JVal.str (pcmToBase64 pcm)),
   ("commit", JVal.bool false),
   ("sample_rate", JVal.num 16000)]

/-- `sendAudioChunk`: warn-and-return unless the connection is open,
otherwise serialise and transmit the frame.  The body never throws: the
guard returns early and the `try`/`catch` around the send converts any
internal failure into an `onError` callback. -/
def sendAudioChunk (s : ElevenLabsWebSocket) (pcm : List ℤ) :
    ElevenLabsWebSocket × List Output :=
  if !(connOpen s) then
    (s, [Output.logWarn "WebSocket not connected, cannot send audio"])
  else
    (s, [Output.wireMsg (audioChunkMessage pcm)])

/-- `startKeepalive`: clears any previous interval, creates the silent
chunk once and schedules the 5-second timer. -/
def startKeepalive (s : ElevenLabsWebSocket) : ElevenLabsWebSocket :=
  { s with keepaliveInterval := true, silentChunk := some createSilentChunk }

/-- `stopKeepalive`: clears the interval timer. -/
def stopKeepalive (s : ElevenLabsWebSocket) : ElevenLabsWebSocket :=
  { s with keepaliveInterval := false }

/-- Body of the `setInterval` callback installed by `startKeepalive`:
if still connected and open, log and send the silent chunk
(unconditionally — there is no check for recently sent real audio). -/
def keepaliveTick (s : ElevenLabsWebSocket) : ElevenLabsWebSocket × List Output :=
  if s.isConnected && s.ws == some WSReadyState.OPEN then
    match s.silentChunk with
    | some c =>
        let r := sendAudioChunk s c
        (r.1, Output.logInfo "Sending keepalive silent chunk" :: r.2)
    | none => (s, [])
  else (s, [])

/-- The `ws.onopen` handler: mark connected and start the keepalive. -/
def handleOpen (s : ElevenLabsWebSocket) : ElevenLabsWebSocket :=
  startKeepalive { s with isConnected := true, ws := some WSReadyState.OPEN }

/-- `disconnect()`: stop the keepalive first, then close and null the
socket, clear the connected flag and the silent chunk. -/
def disconnect (s : ElevenLabsWebSocket) : ElevenLabsWebSocket :=
  let s1 := stopKeepalive s
  { s1 with ws := none, isConnected := false, silentChunk := none }

/-- The `ws.onclose` handler: stop the keepalive, clear state, fire the
`onClose` callback when registered. -/
def handleClose (s : ElevenLabsWebSocket) : ElevenLabsWebSocket × List Output :=
  ({ stopKeepalive s with isConnected := false, ws := none, silentChunk := none },
   if s.callbacks.onClose then [Output.cbClose s.source] else [])

/-- JavaScript truthiness of an optional string field
(`undefined` and `""` are falsy). -/
def jsTruthy : Option String → Bool
  | none => false
  | some s => !(s == "")

/-- The fields of a parsed inbound message that `handleMessage`
inspects. -/
structure InboundMsg where
  message_type : Option String
  type : Option String
  text : Option String
  error : Option String
deriving DecidableEq

/-- `handleMessage`: demultiplex an inbound message.  A
`committed_transcript` with truthy text and a registered callback is
logged, enqueued via `fetch('http://localhost:3000/agent/run')` and
forwarded to the callback; otherwise that case falls through silently. -/
def handleMessage (s : ElevenLabsWebSocket) (m : InboundMsg) :
    ElevenLabsWebSocket × List Output :=
  if jsTruthy m.message_type then
    if m.message_type == some "session_started" then
      (s, [Output.logInfo "ElevenLabs session started"])
    else if m.message_type == some "partial_transcript" then
      if jsTruthy m.text && s.callbacks.onPartialTranscript then
        (s, [Output.cbPartialTranscript (m.text.getD "") s.source])
      else (s, [])
    else if m.message_type == some "committed_transcript" then
      if jsTruthy m.text && s.callbacks.onCommittedTranscript then
        (s, [Output.logInfo "Committed transcript",
             Output.httpPost "http://localhost:3000/agent/run"
               [("transcript", JVal.str (m.text.getD "")),
                ("source", JVal.str (sourceName s.source))],
             Output.cbCommittedTranscript (m.text.getD "") s.source])
      else (s, [])
    else if m.message_type == some "input_error" then
      (s, Output.logWarn "ElevenLabs input error" ::
        (if s.callbacks.onError then
          [Output.cbError (if jsTruthy m.error then m.error.getD "" else "Input error")
            s.source]
        else []))
    else (s, [Output.logInfo "Unknown message_type"])
  else if jsTruthy m.type then
    if m.type == some "partial_transcript" then
      if jsTruthy m.text && s.callbacks.onPartialTranscript then
        (s, [Output.cbPartialTranscript (m.text.getD "") s.source])
      else (s, [])
    else if m.type == some "committed_transcript" then
      if jsTruthy m.text && s.callbacks.onCommittedTranscript then
        (s, [Output.cbCommittedTranscript (m.text.getD "") s.source])
      else (s, [])
    else (s, [Output.logInfo "Unknown message type"])
  else (s, [Output.logInfo "Unknown message format"])

/-- Events driving one `ElevenLabsWebSocket` instance: the caller's
method calls (`connect`, `sendAudioChunk`, `disconnect`), the socket's
`onopen`/`onmessage`/`onclose` events, and the keepalive timer firing. -/
inductive WSEvent where
  | connectStart (cbs : CallbackSet) (src : AudioSource)
  | socketOpen
  | socketMessage (m : InboundMsg)
  | sendChunk (pcm : List ℤ)
  | keepaliveFire
  | socketClose
  | disconnectCall
deriving DecidableEq

/-- One step of the client.  `none` marks an event the environment
cannot deliver in that state (no timer scheduled, no socket for a
socket event). -/
def wsStep (s : ElevenLabsWebSocket) : WSEvent → Option (ElevenLabsWebSocket × List Output)
  | .connectStart cbs src =>
      if s.isConnected && !(s.ws == none) then
        some (s, [Output.logWarn "WebSocket already connected"])
      else
        some ({ s with callbacks := cbs, source := src, ws := some WSReadyState.CONNECTING },
          [])
  | .socketOpen =>
      match s.ws with
      | some WSReadyState.CONNECTING => some (handleOpen s, [])
      | _ => none
  | .socketMessage m =>
      match s.ws with
      | some _ => some (handleMessage s m)
      | none => none
  | .sendChunk pcm => some (sendAudioChunk s pcm)
  | .keepaliveFire => if s.keepaliveInterval then some (keepaliveTick s) else none
  | .socketClose =>
      match s.ws with
      | some _ => some (handleClose s)
      | none => none
  | .disconnectCall => some (disconnect s, [])

/-- Run a trace of events, accumulating the outputs. -/
def wsRun (s : ElevenLabsWebSocket) : List WSEvent → Option (ElevenLabsWebSocket × List Output)
  | [] => some (s, [])
  | e :: es =>
    match wsStep s e with
    | none => none
    | some (s1, out1) =>
      match wsRun s1 es with
      | none => none
      | some (s2, out2) => some (s2, out1 ++ out2)

/-- Freshly constructed client: no socket, no callbacks, source
defaults to `'mic'`. -/
def initWebSocket : ElevenLabsWebSocket :=
  ⟨none, false, false, none, ⟨false, false, false, false⟩, AudioSource.mic⟩

/-- A connected, open client with all callbacks registered (the state
reached after `connect` resolves). -/
def wsOpenState : ElevenLabsWebSocket :=
  ⟨some WSReadyState.OPEN, true, true, some createSilentChunk,
   ⟨true, true, true, true⟩, AudioSource.mic⟩

/-! ## Capture session (`AudioCapture`, `src/fe/.../audioCapture.ts`)

The per-source pipeline variant: a `mic` processor always, a `system`
processor only when the display-media stream has an audio track. -/

/-- Which device handles and processors the `AudioCapture` instance
holds (each TypeScript field is `null` or an acquired object). -/
structure AudioCaptureState where
  audioContext : Bool
  micStream : Bool
  systemStream : Bool
  micProcessor : Bool
  systemProcessor : Bool
  isCapturing : Bool
  onAudioDataCallback : Bool
deriving DecidableEq

/-- The state after construction or after `stop()` (every handle
released and nulled). -/
def stoppedCapture : AudioCaptureState := ⟨false, false, false, false, false, false, false⟩

/-- What the platform grants during `start`: whether `getUserMedia`
resolves, whether `getDisplayMedia` resolves, and whether the resolved
display stream carries an audio track. -/
structure CaptureEnv where
  micAvailable : Bool
  displayMediaAvailable : Bool
  systemHasAudioTrack : Bool
deriving DecidableEq

/-- `AudioCapture.start`: returns the new state, the console warnings
and logs, and the thrown error message if the start aborted.  An active
session makes it warn and return; a microphone failure is caught by
`start`, which runs `stop()` and rethrows; a system-audio failure is
caught inside `startSystemAudioCapture` and is non-fatal. -/
def startCapture (s : AudioCaptureState) (env : CaptureEnv) :
    AudioCaptureState × List String × Option String :=
  if s.isCapturing then (s, ["Audio capture already running"], none)
  else
    let s1 : AudioCaptureState := { s with onAudioDataCallback := true, audioContext := true }
    if !env.micAvailable then
      (stoppedCapture, ["Failed to start audio capture"],
        some "Microphone access denied or unavailable")
    else
      let s2 := { s1 with micStream := true, micProcessor := true }
      let s3 :=
        if !env.displayMediaAvailable then s2
        else if !env.systemHasAudioTrack then { s2 with systemStream := true }
        else { s2 with systemStream := true, systemProcessor := true }
      ({ s3 with isCapturing := true }, ["Audio capture started successfully"], none)

/-- Frame source tags of this `AudioCapture` variant. -/
inductive CaptureSource where
  | mic
  | system
deriving DecidableEq

/-- The sources whose frames are delivered to the frame callback: one
per installed `ScriptProcessorNode`. -/
def activeSources (s : AudioCaptureState) : List CaptureSource :=
  (if s.micProcessor then [CaptureSource.mic] else []) ++
  (if s.systemProcessor then [CaptureSource.system] else [])

/-- An environment granting every device, used for concrete sessions. -/
def fullEnv : CaptureEnv := ⟨true, true, true⟩

/-! ## Advisory backend (`src/be/src/agent_loop.ts`, `src/be/src/index.ts`)

`POST /agent/run` validates the body and calls `runAgentLoop(transcript)`
without awaiting it, so every accepted request immediately starts its
own advisory invocation; there is no queue and no worker.  Each
invocation later resolves (push the text onto `jobStore` and extend
`messageHistory`) or rejects (the `catch` block only logs).  The order
in which pending invocations resolve is chosen by the environment, so
it is an event in the trace. -/

/-- One entry of the module-level `messageHistory`. -/
structure BackendMsg where
  role : String
  content : String
deriving DecidableEq

/-- The backend module state: the advisory invocations started but not
yet settled, the `jobStore` result list, the `messageHistory`, and a
counter naming the invocations. -/
structure BackendState where
  inFlight : List (ℕ × String)
  jobStore : List String
  messageHistory : List BackendMsg
  nextId : ℕ
deriving DecidableEq

/-- Process start: empty stores. -/
def initBackend : BackendState := ⟨[], [], [], 0⟩

/-- Backend events: an accepted `POST /agent/run`, and the settlement
(fulfilment or rejection) of a pending advisory invocation. -/
inductive BEvent where
  | httpRun (transcript : String)
  | agentCompletes (id : ℕ) (resultText : String)
  | agentFails (id : ℕ)
deriving DecidableEq

/-- One backend step.  `httpRun` with a falsy transcript is the 400
path (nothing started).  `agentCompletes id r` is the tail of
`runAgentLoop` after `generate` resolves: `jobStore.push(result.text)`,
then the user message and (when non-empty) the assistant response are
appended to `messageHistory`.  `agentFails` is the `catch` block:
`console.error` only. -/
def backendStep (s : BackendState) : BEvent → Option BackendState
  | .httpRun t =>
      if t == "" then some s
      else some { s with inFlight := s.inFlight ++ [(s.nextId, t)], nextId := s.nextId + 1 }
  | .agentCompletes id r =>
      match s.inFlight.find? (fun j => j.1 == id) with
      | none => none
      | some j =>
          some { s with
            inFlight := s.inFlight.filter (fun j2 => !(j2.1 == id)),
            jobStore := s.jobStore ++ [r],
            messageHistory := s.messageHistory ++
              (⟨"user", j.2⟩ :: (if r == "" then [] else [⟨"assistant", r⟩])) }
  | .agentFails id =>
      if s.inFlight.any (fun j => j.1 == id) then
        some { s with inFlight := s.inFlight.filter (fun j2 => !(j2.1 == id)) }
      else none

/-- Run a trace of backend events. -/
def backendRun (s : BackendState) : List BEvent → Option BackendState
  | [] => some s
  | e :: es =>
    match backendStep s e with
    | none => none
    | some s1 => backendRun s1 es

/-- The fulfilment results of a trace, in settlement order. -/
def completionResults : List BEvent → List String
  | [] => []
  | BEvent.agentCompletes _ r :: es => r :: completionResults es
  | _ :: es => completionResults es

/-- `poll()`: `jobStore.shift()` — remove and return the first element,
or `undefined` on an empty store, never blocking. -/
def poll : List String → Option String × List String
  | [] => (none, [])
  | r :: rest => (some r, rest)

/-- The `GET /agent/poll` handler: `res.json({ result })`.
`JSON.stringify` omits a field whose value is `undefined`, so an empty
store answers with an empty object. -/
def pollResponse (jobStore : List String) : JObj × List String :=
  match poll jobStore with
  | (some r, rest) => ([("result", JVal.str r)], rest)
  | (none, rest) => ([], rest)

theorem int16Wrap_range (n : ℤ) : -32768 ≤ int16Wrap n ∧ int16Wrap n ≤ 32767 := by
  unfold int16Wrap
  split <;> omega

theorem int16Wrap_eq_of_range (n : ℤ) (h1 : -32768 ≤ n) (h2 : n ≤ 32767) :
    int16Wrap n = n := by
  unfold int16Wrap
  split <;> omega

theorem leBytes_roundtrip (v : ℤ) (h1 : -32768 ≤ v) (h2 : v ≤ 32767) :
    decodeLEPair (int16ToLEBytes v) = some v := by
  unfold decodeLEPair int16ToLEBytes leBytesToInt16
  simp only [Option.some.injEq]
  split <;> omega

theorem jsTrunc_intCast (n : ℤ) : jsTrunc (n : ℚ) = n := by
  unfold jsTrunc
  split
  · rw [← Int.cast_neg, Int.floor_intCast]; omega
  · exact Int.floor_intCast n

theorem clampSample_of_mem (x : ℚ) (h1 : -1 ≤ x) (h2 : x ≤ 1) : clampSample x = x := by
  unfold clampSample
  rw [min_eq_right h2, max_eq_right h1]

theorem encSample_of_ge_one (x : ℚ) (h : 1 ≤ x) : encSample x = 32767 := by
  have hc : clampSample x = 1 := by
    unfold clampSample
    rw [min_eq_left h]
    norm_num
  unfold encSample
  rw [hc, if_neg (by norm_num), show ((1 : ℚ) * 32767) = ((32767 : ℤ) : ℚ) by norm_num,
    jsTrunc_intCast]
  rw [int16Wrap_eq_of_range] <;> norm_num

theorem encSample_of_le_neg_one (x : ℚ) (h : x ≤ -1) : encSample x = -32768 := by
  have hc : clampSample x = -1 := by
    unfold clampSample
    rw [min_eq_right (by linarith), max_eq_left h]
  unfold encSample
  rw [hc, if_pos (by norm_num), show ((-1 : ℚ) * 32768) = ((-32768 : ℤ) : ℚ) by norm_num,
    jsTrunc_intCast]
  rw [int16Wrap_eq_of_range] <;> norm_num

theorem encSample_range (x : ℚ) : -32768 ≤ encSample x ∧ encSample x ≤ 32767 := by
  unfold encSample
  exact int16Wrap_range _

/-- Quantization bound: an in-range sample round-trips through the
encoder and the matching 16-bit decoder to within one quantization step
(1/32767 covers both the positive-side step 1/32767 and the
negative-side step 1/32768). -/
theorem encSample_quantization (x : ℚ) (h1 : -1 ≤ x) (h2 : x ≤ 1) :
    |pcm16Decode (encSample x) - x| ≤ 1 / 32767 := by
  have hc := clampSample_of_mem x h1 h2
  unfold encSample
  rw [hc]
  by_cases hx : x < 0
  · rw [if_pos hx]
    have hneg : x * 32768 < 0 := mul_neg_of_neg_of_pos hx (by norm_num)
    have hjs : jsTrunc (x * 32768) = -(Int.floor (-(x * 32768))) := by
      unfold jsTrunc
      rw [if_pos hneg]
    rw [hjs]
    have hfl : ((Int.floor (-(x * 32768)) : ℤ) : ℚ) ≤ -(x * 32768) := Int.floor_le _
    have hfl2 : -(x * 32768) < (Int.floor (-(x * 32768)) : ℚ) + 1 := Int.lt_floor_add_one _
    have hf0 : 0 ≤ Int.floor (-(x * 32768)) := Int.floor_nonneg.mpr (by linarith)
    have hf1 : Int.floor (-(x * 32768)) ≤ 32768 := by
      have : -(x * 32768) ≤ ((32768 : ℤ) : ℚ) := by push_cast; linarith
      calc Int.floor (-(x * 32768)) ≤ Int.floor ((32768 : ℤ) : ℚ) := Int.floor_le_floor this
        _ = 32768 := Int.floor_intCast _
    rw [int16Wrap_eq_of_range _ (by omega) (by omega)]
    by_cases hz : Int.floor (-(x * 32768)) = 0
    · rw [hz]
      have ht1 : -(x * 32768) < 1 := by
        rw [hz] at hfl2
        norm_num at hfl2
        exact hfl2
      unfold pcm16Decode
      rw [if_neg (by norm_num)]
      rw [abs_le]
      push_cast
      constructor <;> linarith
    · have hdec : pcm16Decode (-(Int.floor (-(x * 32768)))) =
          ((-(Int.floor (-(x * 32768))) : ℤ) : ℚ) / 32768 := by
        unfold pcm16Decode
        rw [if_pos (by omega)]
      rw [hdec, abs_le]
      push_cast
      constructor <;> linarith
  · rw [if_neg hx]
    push_neg at hx
    have h0 : 0 ≤ x * 32767 := by positivity
    have hjs : jsTrunc (x * 32767) = Int.floor (x * 32767) := by
      unfold jsTrunc
      rw [if_neg (not_lt.mpr h0)]
    rw [hjs]
    have hfl : ((Int.floor (x * 32767) : ℤ) : ℚ) ≤ x * 32767 := Int.floor_le _
    have hfl2 : x * 32767 < (Int.floor (x * 32767) : ℚ) + 1 := Int.lt_floor_add_one _
    have hf0 : 0 ≤ Int.floor (x * 32767) := Int.floor_nonneg.mpr h0
    have hf1 : Int.floor (x * 32767) ≤ 32767 := by
      have : x * 32767 ≤ ((32767 : ℤ) : ℚ) := by push_cast; linarith
      calc Int.floor (x * 32767) ≤ Int.floor ((32767 : ℤ) : ℚ) := Int.floor_le_floor this
        _ = 32767 := Int.floor_intCast _
    rw [int16Wrap_eq_of_range _ (by omega) (by omega)]
    have hdec : pcm16Decode (Int.floor (x * 32767)) =
        ((Int.floor (x * 32767) : ℤ) : ℚ) / 32767 := by
      unfold pcm16Decode
      rw [if_neg (by omega)]
    rw [hdec, abs_le]
    constructor <;> linarith

/-- C5: for every input sequence of floating-point samples (modelled as
rationals), `convertToPCM16` returns a 16-bit signed output of equal
sample count with no error path: each output sample lies in
[-32768, 32767] and round-trips through the little-endian two-byte
serialisation; out-of-range inputs are clamped to 32767 / -32768; and
in-range inputs decode back to within one quantization step (1 LSB,
bounded by 1/32767) of the input. -/
theorem convertToPCM16_spec (xs : List ℚ) :
    (convertToPCM16 xs).length = xs.length ∧
    List.Forall₂ (fun x v =>
      (-32768 ≤ v ∧ v ≤ 32767) ∧
      decodeLEPair (int16ToLEBytes v) = some v ∧
      (1 ≤ x → v = 32767) ∧
      (x ≤ -1 → v = -32768) ∧
      (-1 ≤ x → x ≤ 1 → |pcm16Decode v - x| ≤ 1 / 32767))
      xs (convertToPCM16 xs) := by
  constructor
  · simp [convertToPCM16]
  · unfold convertToPCM16
    induction xs with
    | nil => exact List.Forall₂.nil
    | cons x xs ih =>
      refine List.Forall₂.cons ?_ ih
      exact ⟨encSample_range x,
        leBytes_roundtrip _ (encSample_range x).1 (encSample_range x).2,
        encSample_of_ge_one x, encSample_of_le_neg_one x, encSample_quantization x⟩

/-- Witness for C5 at a concrete sample list (an in-range, an
above-range and a below-range sample). -/
theorem convertToPCM16_spec_witness :
    (convertToPCM16 [(1 : ℚ) / 2, 3, -2]).length = 3 := by
  have h := (convertToPCM16_spec [(1 : ℚ) / 2, 3, -2]).1
  simpa using h

theorem b64Index_b64Char : ∀ i, i < 64 → b64Index (b64Char i) = some i := by decide

theorem b64Index_pad : b64Index '=' = none := by decide

theorem b64_roundtrip : ∀ bytes : List ℕ, (∀ b ∈ bytes, b < 256) →
    b64DecodeChars (base64Encode bytes) = some bytes := by
  intro bytes
  induction bytes using base64Encode.induct with
  | case1 => intro _; rfl
  | case2 b0 =>
    intro h
    have hb0 : b0 < 256 := h b0 (by simp)
    simp only [base64Encode, b64DecodeChars]
    rw [b64Index_b64Char _ (by omega), b64Index_b64Char _ (by omega), b64Index_pad]
    simp
    omega
  | case3 b0 b1 =>
    intro h
    have hb0 : b0 < 256 := h b0 (by simp)
    have hb1 : b1 < 256 := h b1 (by simp)
    simp only [base64Encode, b64DecodeChars]
    rw [b64Index_b64Char _ (by omega), b64Index_b64Char _ (by omega),
      b64Index_b64Char _ (by omega), b64Index_pad]
    simp
    omega
  | case4 b0 b1 b2 rest ih =>
    intro h
    have hb0 : b0 < 256 := h b0 (by simp)
    have hb1 : b1 < 256 := h b1 (by simp)
    have hb2 : b2 < 256 := h b2 (by simp)
    have hrest : ∀ b ∈ rest, b < 256 := fun b hb => h b (by simp [hb])
    simp only [base64Encode, b64DecodeChars]
    rw [b64Index_b64Char _ (by omega), b64Index_b64Char _ (by omega),
      b64Index_b64Char _ (by omega), b64Index_b64Char _ (by omega)]
    rw [ih hrest]
    simp
    refine ⟨?_, ?_, ?_⟩ <;> omega

theorem int16ToLEBytes_lt (v : ℤ) : ∀ b ∈ int16ToLEBytes v, b < 256 := by
  unfold int16ToLEBytes
  intro b hb
  simp only [List.mem_cons, List.mem_singleton, List.not_mem_nil, or_false] at hb
  rcases hb with h | h <;> subst h <;> omega

theorem pcmLEBytes_lt (pcm : List ℤ) : ∀ b ∈ pcmLEBytes pcm, b < 256 := by
  unfold pcmLEBytes
  intro b hb
  simp only [List.mem_flatten, List.mem_map] at hb
  obtain ⟨l, ⟨v, _, rfl⟩, hbl⟩ := hb
  exact int16ToLEBytes_lt v b hbl

/-- The base64 payload produced by `pcmToBase64` decodes back to exactly
the little-endian PCM16 bytes of the frame. -/
theorem pcmToBase64_decodes (pcm : List ℤ) :
    b64DecodeChars (pcmToBase64 pcm).data = some (pcmLEBytes pcm) := by
  unfold pcmToBase64
  exact b64_roundtrip _ (pcmLEBytes_lt pcm)

/-- C7: calling `sendAudioChunk` when the connection is not in the open
state (in particular on a fresh client before `connect` completes, and
on any state produced by `disconnect`) never throws: it is a no-op with
a logged warning, the state — including the keepalive timer — is left
unchanged, and nothing is transmitted.  (`sendAudioChunk` is a total
function of the state, so no exception path exists in any state.) -/
theorem sendAudioChunk_not_open :
    (∀ (s : ElevenLabsWebSocket) (pcm : List ℤ), connOpen s = false →
      sendAudioChunk s pcm =
        (s, [Output.logWarn "WebSocket not connected, cannot send audio"])) ∧
    connOpen initWebSocket = false ∧
    (∀ s : ElevenLabsWebSocket, connOpen (disconnect s) = false) := by
  refine ⟨fun s pcm h => ?_, rfl, fun s => ?_⟩
  · simp [sendAudioChunk, h]
  · simp [connOpen, disconnect, stopKeepalive]

/-- Witness for C7: a fresh client is not open, and sending a frame on
it is the warned no-op. -/
theorem sendAudioChunk_not_open_witness :
    sendAudioChunk initWebSocket [1, 2] =
      (initWebSocket, [Output.logWarn "WebSocket not connected, cannot send audio"]) :=
  sendAudioChunk_not_open.1 initWebSocket [1, 2] rfl

/-- C10: an inbound `committed_transcript` message (in either the
`message_type` or the legacy `type` encoding) whose `text` is empty or
absent, or that arrives with no committed-transcript callback
registered, produces no output at all: no callback firing, no HTTP
enqueue to `/agent/run`, no log — it is silently dropped and the state
is unchanged. -/
theorem handleMessage_drops_committed :
    ∀ (s : ElevenLabsWebSocket) (m : InboundMsg),
      (m.message_type = some "committed_transcript" ∨
        (jsTruthy m.message_type = false ∧ m.type = some "committed_transcript")) →
      (jsTruthy m.text = false ∨ s.callbacks.onCommittedTranscript = false) →
      handleMessage s m = (s, []) := by
  intro s m hkind hdrop
  have hguard : (jsTruthy m.text && s.callbacks.onCommittedTranscript) = false := by
    rcases hdrop with h | h <;> simp [h]
  have htr : jsTruthy (some "committed_transcript") = true := rfl
  rcases hkind with h | ⟨h1, h2⟩
  · simp [handleMessage, h, htr, hguard]
  · simp [handleMessage, h1, h2, htr, hguard]

/-- Witness for C10: an empty-text committed transcript on an open
connection with every callback registered is dropped. -/
theorem handleMessage_drops_committed_witness :
    handleMessage wsOpenState ⟨some "committed_transcript", none, some "", none⟩ =
      (wsOpenState, []) :=
  handleMessage_drops_committed wsOpenState
    ⟨some "committed_transcript", none, some "", none⟩ (Or.inl rfl) (Or.inl rfl)

/-- C4 counterexample: on an open connection the outbound wire message
for the frame `[0]` uses the field names `message_type` and
`audio_base_64`, so it is not the object
`{ type: "input_audio_chunk", audio_base64: ..., commit: false,
sample_rate: 16000 }` that the claim states. -/
theorem wire_format_cex :
    sendAudioChunk wsOpenState [0] =
      (wsOpenState, [Output.wireMsg (audioChunkMessage [0])]) ∧
    audioChunkMessage [0] ≠ specAudioChunkMessage [0] := by
  refine ⟨rfl, ?_⟩
  decide

/-- C4 amended: for every PCM frame sent while the connection is open,
the outbound wire message is exactly
`{ message_type: "input_audio_chunk", audio_base_64: <base64 of the
little-endian PCM16 bytes>, commit: false, sample_rate: 16000 }` —
in particular the base64 payload decodes back to exactly the
little-endian PCM16 bytes of the frame. -/
theorem sendAudioChunk_wire_format :
    ∀ (s : ElevenLabsWebSocket) (pcm : List ℤ), connOpen s = true →
      sendAudioChunk s pcm =
        (s, [Output.wireMsg
          [("message_type", JVal.str "input_audio_chunk"),
           ("audio_base_64", JVal.str (pcmToBase64 pcm)),
           ("commit", JVal.bool false),
           ("sample_rate", JVal.num 16000)]]) ∧
      b64DecodeChars (pcmToBase64 pcm).data = some (pcmLEBytes pcm) := by
  intro s pcm h
  refine ⟨?_, pcmToBase64_decodes pcm⟩
  simp [sendAudioChunk, h, audioChunkMessage]

/-- Witness for the amended C4 at a concrete open state and frame. -/
theorem sendAudioChunk_wire_format_witness :
    sendAudioChunk wsOpenState [1, -1] =
      (wsOpenState, [Output.wireMsg
        [("message_type", JVal.str "input_audio_chunk"),
         ("audio_base_64", JVal.str (pcmToBase64 [1, -1])),
         ("commit", JVal.bool false),
         ("sample_rate", JVal.num 16000)]]) :=
  (sendAudioChunk_wire_format wsOpenState [1, -1] rfl).1

theorem handleMessage_state (s : ElevenLabsWebSocket) (m : InboundMsg) :
    (handleMessage s m).1 = s := by
  unfold handleMessage
  repeat' split
  all_goals rfl

theorem sendAudioChunk_state (s : ElevenLabsWebSocket) (pcm : List ℤ) :
    (sendAudioChunk s pcm).1 = s := by
  unfold sendAudioChunk
  split <;> rfl

theorem keepaliveTick_state (s : ElevenLabsWebSocket) :
    (keepaliveTick s).1 = s := by
  unfold keepaliveTick
  repeat' split
  all_goals simp [sendAudioChunk_state]

theorem wsStep_keepalive_inv (s : ElevenLabsWebSocket) (e : WSEvent)
    (s' : ElevenLabsWebSocket) (out : List Output)
    (hstep : wsStep s e = some (s', out))
    (hinv : s.keepaliveInterval = s.isConnected) :
    s'.keepaliveInterval = s'.isConnected := by
  cases e with
  | connectStart cbs src =>
    simp only [wsStep] at hstep
    split at hstep <;>
      (simp only [Option.some.injEq, Prod.mk.injEq] at hstep
       obtain ⟨rfl, rfl⟩ := hstep) <;> simpa using hinv
  | socketOpen =>
    simp only [wsStep] at hstep
    split at hstep
    · simp only [Option.some.injEq, Prod.mk.injEq] at hstep
      obtain ⟨rfl, rfl⟩ := hstep
      rfl
    · cases hstep
  | socketMessage m =>
    simp only [wsStep] at hstep
    split at hstep
    · simp only [Option.some.injEq] at hstep
      have h1 : s' = (handleMessage s m).1 := by rw [hstep]
      rw [h1, handleMessage_state]
      exact hinv
    · cases hstep
  | sendChunk pcm =>
    simp only [wsStep, Option.some.injEq] at hstep
    have h1 : s' = (sendAudioChunk s pcm).1 := by rw [hstep]
    rw [h1, sendAudioChunk_state]
    exact hinv
  | keepaliveFire =>
    simp only [wsStep] at hstep
    split at hstep
    · simp only [Option.some.injEq] at hstep
      have h1 : s' = (keepaliveTick s).1 := by rw [hstep]
      rw [h1, keepaliveTick_state]
      exact hinv
    · cases hstep
  | socketClose =>
    simp only [wsStep] at hstep
    split at hstep
    · simp only [handleClose, Option.some.injEq, Prod.mk.injEq] at hstep
      obtain ⟨rfl, rfl⟩ := hstep
      rfl
    · cases hstep
  | disconnectCall =>
    simp only [wsStep, Option.some.injEq, Prod.mk.injEq] at hstep
    obtain ⟨rfl, rfl⟩ := hstep
    rfl

theorem wsRun_keepalive_inv :
    ∀ (tr : List WSEvent) (s : ElevenLabsWebSocket),
      s.keepaliveInterval = s.isConnected →
      ∀ s' out, wsRun s tr = some (s', out) →
        s'.keepaliveInterval = s'.isConnected := by
  intro tr
  induction tr with
  | nil =>
    intro s hs s' out h
    simp only [wsRun, Option.some.injEq, Prod.mk.injEq] at h
    obtain ⟨rfl, rfl⟩ := h
    exact hs
  | cons e es ih =>
    intro s hs s' out h
    simp only [wsRun] at h
    cases hstep : wsStep s e with
    | none => simp only [hstep] at h; exact Option.noConfusion h
    | some p =>
      obtain ⟨s1, out1⟩ := p
      simp only [hstep] at h
      cases hrun : wsRun s1 es with
      | none => simp only [hrun] at h; exact Option.noConfusion h
      | some q =>
        obtain ⟨s2, out2⟩ := q
        simp only [hrun, Option.some.injEq, Prod.mk.injEq] at h
        obtain ⟨h2, -⟩ := h
        rw [← h2]
        exact ih s1 (wsStep_keepalive_inv s e s1 out1 hstep hs) s2 out2 hrun

/-- C8 counterexample: immediately after a real audio frame is sent on
an open connection, the keepalive timer still transmits the silence
frame — the code has no notion of "no real audio sent recently", so
the claim's condition on when the silence frame is transmitted is
false. -/
theorem keepalive_after_real_audio_cex :
    wsRun initWebSocket
      [WSEvent.connectStart ⟨true, true, true, true⟩ AudioSource.mic,
       WSEvent.socketOpen,
       WSEvent.sendChunk [1000],
       WSEvent.keepaliveFire] =
    some (wsOpenState,
      [Output.wireMsg (audioChunkMessage [1000]),
       Output.logInfo "Sending keepalive silent chunk",
       Output.wireMsg (audioChunkMessage createSilentChunk)]) := by
  rfl

/-- C8 amended: while the connection is open, a timer with period
`keepaliveIntervalMs = 5000` transmits the 1600-sample silence frame on
every firing, regardless of whether real audio was sent recently; the
timer is scheduled exactly while the connection is connected (in every
reachable state the timer exists iff `isConnected`), `disconnect()`
cancels it, and the close handler cancels it. -/
theorem keepalive_amended :
    keepaliveIntervalMs = 5000 ∧
    (∀ tr s out, wsRun initWebSocket tr = some (s, out) →
      s.keepaliveInterval = s.isConnected) ∧
    (∀ s : ElevenLabsWebSocket, s.isConnected = true → s.ws = some WSReadyState.OPEN →
      s.silentChunk = some createSilentChunk →
      keepaliveTick s =
        (s, [Output.logInfo "Sending keepalive silent chunk",
             Output.wireMsg (audioChunkMessage createSilentChunk)])) ∧
    (∀ s : ElevenLabsWebSocket,
      (disconnect s).keepaliveInterval = false ∧
      (handleClose s).1.keepaliveInterval = false) := by
  refine ⟨rfl, ?_, ?_, ?_⟩
  · intro tr s out h
    exact wsRun_keepalive_inv tr initWebSocket rfl s out h
  · intro s h1 h2 h3
    have hopen : connOpen s = true := by simp [connOpen, h1, h2]
    simp [keepaliveTick, h1, h2, h3, sendAudioChunk, hopen]
  · intro s
    exact ⟨rfl, rfl⟩

/-- Witness for the amended C8: a concrete open trace reaches a state
with the timer scheduled, and its tick emits the silence frame. -/
theorem keepalive_amended_witness :
    keepaliveTick wsOpenState =
      (wsOpenState, [Output.logInfo "Sending keepalive silent chunk",
        Output.wireMsg (audioChunkMessage createSilentChunk)]) :=
  keepalive_amended.2.2.1 wsOpenState rfl rfl rfl

/-- C3 counterexample: after a successful start, a second `start` call
returns with no thrown error (the error component is `none`, where the
claim requires an `AlreadyRunning` failure); the session state — all
device handles included — is returned unchanged. -/
theorem startCapture_already_running_cex :
    (startCapture stoppedCapture fullEnv).1.isCapturing = true ∧
    (startCapture (startCapture stoppedCapture fullEnv).1 fullEnv).2.2 = none ∧
    (startCapture (startCapture stoppedCapture fullEnv).1 fullEnv).1 =
      (startCapture stoppedCapture fullEnv).1 := by
  refine ⟨rfl, rfl, rfl⟩

/-- C3 amended: calling capture `start()` while a session is active is
rejected as a no-op — it logs the warning "Audio capture already
running" and returns without error, leaving the original session's
state (every device handle) untouched. -/
theorem startCapture_already_running :
    ∀ (s : AudioCaptureState) (env : CaptureEnv), s.isCapturing = true →
      startCapture s env = (s, ["Audio capture already running"], none) := by
  intro s env h
  simp [startCapture, h]

/-- Witness for the amended C3 at a concrete active session. -/
theorem startCapture_already_running_witness :
    startCapture (startCapture stoppedCapture fullEnv).1 fullEnv =
      ((startCapture stoppedCapture fullEnv).1,
        ["Audio capture already running"], none) :=
  startCapture_already_running (startCapture stoppedCapture fullEnv).1 fullEnv rfl

/-- C6: starting from a fresh instance, `start` aborts with the
device-unavailable failure exactly when local microphone acquisition
fails (in which case the caught error runs `stop()` and rethrows,
leaving the stopped state); a remote/system audio failure — whether
`getDisplayMedia` rejects or the granted stream has no audio track —
is non-fatal: `start` still succeeds and only local (`mic`) source
frames are delivered. -/
theorem startCapture_mic_failure :
    ∀ env : CaptureEnv,
      ((startCapture stoppedCapture env).2.2.isSome ↔ env.micAvailable = false) ∧
      (env.micAvailable = false →
        startCapture stoppedCapture env =
          (stoppedCapture, ["Failed to start audio capture"],
            some "Microphone access denied or unavailable")) ∧
      (env.micAvailable = true →
        (startCapture stoppedCapture env).2.2 = none ∧
        (startCapture stoppedCapture env).1.isCapturing = true ∧
        ((env.displayMediaAvailable = false ∨ env.systemHasAudioTrack = false) →
          activeSources (startCapture stoppedCapture env).1 = [CaptureSource.mic])) := by
  intro env
  obtain ⟨m, d, t⟩ := env
  cases m <;> cases d <;> cases t <;> refine ⟨by decide, by decide, by decide⟩

/-- Witness for C6: the microphone granted but `getDisplayMedia`
rejected gives a successful local-only session. -/
theorem startCapture_mic_failure_witness :
    activeSources (startCapture stoppedCapture ⟨true, false, true⟩).1 =
      [CaptureSource.mic] :=
  ((startCapture_mic_failure ⟨true, false, true⟩).2.2 rfl).2.2 (Or.inl rfl)

/-- C1 counterexample: two accepted `/agent/run` requests put two
advisory invocations in flight at once (the claim allows at most one),
and when the second invocation settles before the first, the results
land in the `jobStore` result buffer in completion order
`["Rbeta", "Ralpha"]`, not in the enqueue order (alpha before beta). -/
theorem dispatcher_single_flight_cex :
    ((backendRun initBackend [BEvent.httpRun "alpha", BEvent.httpRun "beta"]).map
        (fun s => s.inFlight.length) = some 2) ∧
    ((backendRun initBackend
        [BEvent.httpRun "alpha", BEvent.httpRun "beta",
         BEvent.agentCompletes 1 "Rbeta", BEvent.agentCompletes 0 "Ralpha"]).map
        (fun s => s.jobStore) = some ["Rbeta", "Ralpha"]) := by
  refine ⟨rfl, rfl⟩

theorem backendRun_jobStore (es : List BEvent) :
    ∀ s0 s, backendRun s0 es = some s →
      s.jobStore = s0.jobStore ++ completionResults es := by
  induction es with
  | nil =>
    intro s0 s h
    simp only [backendRun, Option.some.injEq] at h
    subst h
    simp [completionResults]
  | cons e es ih =>
    intro s0 s h
    simp only [backendRun] at h
    cases hstep : backendStep s0 e with
    | none => simp only [hstep] at h; exact Option.noConfusion h
    | some s1 =>
      simp only [hstep] at h
      have h1 := ih s1 s h
      cases e with
      | httpRun t =>
        simp only [backendStep] at hstep
        split at hstep <;>
          (simp only [Option.some.injEq] at hstep; subst hstep) <;>
          simpa [completionResults] using h1
      | agentCompletes id r =>
        simp only [backendStep] at hstep
        split at hstep
        · exact Option.noConfusion hstep
        · simp only [Option.some.injEq] at hstep
          subst hstep
          simp only [completionResults]
          simpa [List.append_assoc] using h1
      | agentFails id =>
        simp only [backendStep] at hstep
        split at hstep
        · simp only [Option.some.injEq] at hstep
          subst hstep
          simpa [completionResults] using h1
        · exact Option.noConfusion hstep

/-- C1 amended: every accepted `/agent/run` request immediately starts
its own advisory invocation, so several Jobs can be in flight at once
(the counterexample exhibits two); the results appear in the
`jobStore` result buffer in the order the advisory invocations
complete, which need not be the enqueue order. -/
theorem dispatcher_completion_order :
    ∀ (es : List BEvent) (s : BackendState), backendRun initBackend es = some s →
      s.jobStore = completionResults es := by
  intro es s h
  simpa [initBackend] using backendRun_jobStore es initBackend s h

/-- Witness for the amended C1 at a concrete trace. -/
theorem dispatcher_completion_order_witness :
    (⟨[], ["R"], [⟨"user", "a"⟩, ⟨"assistant", "R"⟩], 1⟩ : BackendState).jobStore =
      completionResults [BEvent.httpRun "a", BEvent.agentCompletes 0 "R"] :=
  dispatcher_completion_order [BEvent.httpRun "a", BEvent.agentCompletes 0 "R"]
    ⟨[], ["R"], [⟨"user", "a"⟩, ⟨"assistant", "R"⟩], 1⟩ rfl

/-- C2 counterexample: when the advisory invocation for the only
enqueued Job fails, the `jobStore` result buffer stays empty — no
placeholder error string is appended for that Job, contrary to the
claim; a later Job is nonetheless still processed (its result is the
only buffer entry). -/
theorem worker_failure_cex :
    ((backendRun initBackend [BEvent.httpRun "alpha", BEvent.agentFails 0]).map
        (fun s => s.jobStore) = some []) ∧
    ((backendRun initBackend
        [BEvent.httpRun "alpha", BEvent.httpRun "beta",
         BEvent.agentFails 0, BEvent.agentCompletes 1 "Rbeta"]).map
        (fun s => s.jobStore) = some ["Rbeta"]) := by
  refine ⟨rfl, rfl⟩

/-- C2 amended: if the advisory call for a Job fails, the `catch` block
only logs: the failure is absorbed (the step is defined), nothing is
appended to the `jobStore` result buffer or the history for that Job,
and every other in-flight Job survives and can still be processed. -/
theorem worker_failure_amended :
    ∀ (s : BackendState) (id : ℕ) (s' : BackendState),
      backendStep s (BEvent.agentFails id) = some s' →
      s'.jobStore = s.jobStore ∧
      s'.messageHistory = s.messageHistory ∧
      (∀ j ∈ s.inFlight, j.1 ≠ id → j ∈ s'.inFlight) ∧
      (∀ id2 r, id2 ≠ id → (s.inFlight.any (fun j => j.1 == id2)) = true →
        (backendStep s' (BEvent.agentCompletes id2 r)).isSome = true) := by
  intro s id s' h
  simp only [backendStep] at h
  split at h
  case isFalse => exact Option.noConfusion h
  case isTrue hany =>
    simp only [Option.some.injEq] at h
    subst h
    refine ⟨rfl, rfl, ?_, ?_⟩
    · intro j hj hne
      simp only [List.mem_filter]
      exact ⟨hj, by simpa using hne⟩
    · intro id2 r hne hany2
      simp only [backendStep]
      rw [List.any_eq_true] at hany2
      obtain ⟨j, hj, hjid⟩ := hany2
      have hmem : j ∈ List.filter (fun j2 => !(j2.1 == id)) s.inFlight := by
        simp only [List.mem_filter]
        refine ⟨hj, ?_⟩
        simp only [beq_iff_eq] at hjid
        simp [hjid, hne]
      have hfind : (List.find? (fun j => j.1 == id2)
          (List.filter (fun j2 => !(j2.1 == id)) s.inFlight)).isSome = true := by
        rw [List.find?_isSome]
        exact ⟨j, hmem, hjid⟩
      split
      case h_1 heq => rw [heq] at hfind; exact Bool.noConfusion hfind
      case h_2 => rfl

/-- Witness for the amended C2 at a concrete failing Job. -/
theorem worker_failure_amended_witness :
    (⟨[], [], [], 1⟩ : BackendState).jobStore = ([] : List String) :=
  (worker_failure_amended ⟨[(0, "a")], [], [], 1⟩ 0 ⟨[], [], [], 1⟩ rfl).1

/-- C9: `poll()` removes and returns the oldest entry of the result
buffer (the head of the FIFO list, results having been appended at the
tail), or signals "no result" when the buffer is empty — `shift()`
yields `undefined`, so the `/agent/poll` response carries no result
value; it is a total function, so it never blocks. -/
theorem poll_spec :
    (∀ buf : List String, (poll buf).1 = buf.head? ∧ (poll buf).2 = buf.tail) ∧
    (∀ buf : List String, (poll buf).1 = none ↔ buf = []) ∧
    (∀ (r : String) (rest : List String),
      pollResponse (r :: rest) = ([("result", JVal.str r)], rest)) ∧
    pollResponse [] = ([], []) := by
  refine ⟨fun buf => ?_, fun buf => ?_, fun r rest => rfl, rfl⟩
  · cases buf <;> exact ⟨rfl, rfl⟩
  · cases buf <;> simp [poll]

/-- Witness for C9 at a concrete two-element buffer. -/
theorem poll_spec_witness : (poll ["a", "b"]).1 = some "a" := by
  have h := (poll_spec.1 ["a", "b"]).1
  simpa using h

end BargAIner
